import Mathlib

/-!
Verification of the L-Shape Stone Volume Calculator.

The embedding follows the main script of the repository (the variant with
both chamfer and bullnose edge treatments).  Parameters are the parsed
numeric field values; the parser delivers rationals (decimal input), so the
Parameter Set is modelled over ℚ, while the volume computations, which
multiply by π and take square roots, are modelled over ℝ with the rational
inputs cast in.
-/

/-- Edge treatment variant: 45° chamfer or quarter-circle bullnose,
mirroring the two-state radio selection read by getEdgeType. -/
inductive EdgeType
  | chamfer
  | bullnose
deriving DecidableEq

/-- The Parameter Set assembled by getValues: the six lengths (mm), the
integer quantity from parseInt, and the edge variant. -/
structure Params where
  L : ℚ
  W : ℚ
  T : ℚ
  Lw : ℚ
  Lh : ℚ
  Tr : ℚ
  qty : ℤ
  edge : EdgeType
deriving DecidableEq

/-- The validate function: each invariant is checked by its own
independent if-statement pushing one message onto the errors array, in
source order; nothing short-circuits and nothing is thrown. -/
def validateErrors (v : Params) : List String :=
  (if v.L ≤ 0 then ["Length (L) must be greater than 0."] else []) ++
  (if v.W ≤ 0 then ["Total Width (W) must be greater than 0."] else []) ++
  (if v.T ≤ 0 then ["Flat Thickness (T) must be greater than 0."] else []) ++
  (if v.Lw ≤ 0 then ["Lip Width (Lw) must be greater than 0."] else []) ++
  (if v.Lh ≤ 0 then ["Lip Drop Height (Lh) must be greater than 0."] else []) ++
  (if v.Tr < 0 then ["Tᵣ cannot be negative."] else []) ++
  (if v.qty < 1 then ["Quantity must be at least 1."] else []) ++
  (if v.Tr > 0 ∧ v.T > 0 ∧ v.Tr ≥ v.T
    then ["Tᵣ must be less than Flat Thickness (T)."] else []) ++
  (if v.Lw > 0 ∧ v.W > 0 ∧ v.Lw ≥ v.W
    then ["Lip Width (Lw) must be less than Total Width (W)."] else [])

/-- validate returns true exactly when the errors array stayed empty. -/
def validate (v : Params) : Bool :=
  (validateErrors v).isEmpty

/-- Base L-shape volume: L * (W*T + Lw*Lh), from calculate. -/
noncomputable def baseVol (v : Params) : ℝ :=
  (v.L : ℝ) * ((v.W : ℝ) * (v.T : ℝ) + (v.Lw : ℝ) * (v.Lh : ℝ))

/-- Edge removal volume, from calculate: 0.5*Tr*Tr*L for the chamfer
branch, Tr*Tr*(1 - π/4)*L for the bullnose branch. -/
noncomputable def edgeVol (v : Params) : ℝ :=
  match v.edge with
  | EdgeType.chamfer => 0.5 * (v.Tr : ℝ) * (v.Tr : ℝ) * (v.L : ℝ)
  | EdgeType.bullnose => (v.Tr : ℝ) * (v.Tr : ℝ) * (1 - Real.pi / 4) * (v.L : ℝ)

/-- Single-unit volume: volOne = Math.max(0, baseVol - edgeVol). -/
noncomputable def volOne (v : Params) : ℝ :=
  max 0 (baseVol v - edgeVol v)

/-- Batch total: volTotal = volOne * qty, with no further rounding or
clamping. -/
noncomputable def volTotal (v : Params) : ℝ :=
  volOne v * (v.qty : ℝ)

/-- The calculate entry point: when validate fails it displays the
placeholder dashes and returns without computing (modelled as none);
otherwise it produces the pair (volOne, volTotal). -/
noncomputable def calcResult (v : Params) : Option (ℝ × ℝ) :=
  if validate v then some (volOne v, volTotal v) else none

open Classical in
/-- formatVolume: converts mm³ to m³ and renders it.  An exact zero
renders as the placeholder dash; the two numeric renderings delegate to
the host's toExponential/toFixed primitives, which are abstracted as the
function arguments toExp and toFix. -/
noncomputable def formatVolume (toExp : ℝ → String) (toFix : ℝ → String)
    (mm3 : ℝ) : String :=
  let m3 : ℝ := mm3 / 1000000000
  if m3 = 0 then "—"
  else if m3 < 0.0001 then toExp m3 ++ " m³"
  else toFix m3 ++ " m³"

/-- The pair of strings written to the two result fields by calculate:
dashes when validation fails, otherwise the formatted volumes. -/
noncomputable def displayedVolumes (toExp toFix : ℝ → String) (v : Params) :
    String × String :=
  match calcResult v with
  | none => ("—", "—")
  | some p => (formatVolume toExp toFix p.1, formatVolume toExp toFix p.2)

/-- Quantity acquisition in getValues: parseInt(x,10) || 1.  A parse
producing NaN is modelled as none; the JS or-default replaces both NaN and
the falsy integer 0 by 1, every other integer passes through. -/
def normQty (n : Option ℤ) : ℤ :=
  match n with
  | none => 1
  | some m => if m = 0 then 1 else m

/-- Arc subdivision count for the bullnose cross-section approximation in
drawIsometric (the local constant segments = 12). -/
def segments : ℕ := 12

/-- The cross-section vertex list csTop built by drawIsometric: six sharp
vertices when Tr is not positive; for a chamfer the top-outer corner is
replaced by the two chamfer vertices; for a bullnose it is replaced by the
sampled quarter-circle arc (segments + 1 points). -/
noncomputable def csTop (v : Params) : List (ℝ × ℝ) :=
  if 0 < v.Tr then
    match v.edge with
    | EdgeType.bullnose =>
        ((0 : ℝ), (v.T : ℝ)) ::
          ((List.range (segments + 1)).map (fun (i : ℕ) =>
            ((v.W : ℝ) - (v.Tr : ℝ) +
                (v.Tr : ℝ) * Real.sin (Real.pi / 2 * ((i : ℝ) / (segments : ℝ))),
              (v.T : ℝ) - (v.Tr : ℝ) +
                (v.Tr : ℝ) * Real.cos (Real.pi / 2 * ((i : ℝ) / (segments : ℝ))))) ++
          [((v.W : ℝ), -(v.Lh : ℝ)),
           ((v.W : ℝ) - (v.Lw : ℝ), -(v.Lh : ℝ)),
           ((v.W : ℝ) - (v.Lw : ℝ), 0),
           ((0 : ℝ), (0 : ℝ))])
    | EdgeType.chamfer =>
        [((0 : ℝ), (v.T : ℝ)),
         ((v.W : ℝ) - (v.Tr : ℝ), (v.T : ℝ)),
         ((v.W : ℝ), (v.T : ℝ) - (v.Tr : ℝ)),
         ((v.W : ℝ), -(v.Lh : ℝ)),
         ((v.W : ℝ) - (v.Lw : ℝ), -(v.Lh : ℝ)),
         ((v.W : ℝ) - (v.Lw : ℝ), 0),
         ((0 : ℝ), (0 : ℝ))]
  else
    [((0 : ℝ), (v.T : ℝ)),
     ((v.W : ℝ), (v.T : ℝ)),
     ((v.W : ℝ), -(v.Lh : ℝ)),
     ((v.W : ℝ) - (v.Lw : ℝ), -(v.Lh : ℝ)),
     ((v.W : ℝ) - (v.Lw : ℝ), 0),
     ((0 : ℝ), (0 : ℝ))]

/-- Auto-fit radius, from the autoFitBtn click handler:
Tr = Lw + T - Math.sqrt(2 * Lw * T). -/
noncomputable def autoFitTr (Lw T : ℝ) : ℝ :=
  Lw + T - Real.sqrt (2 * Lw * T)

/-- End-to-end chamfer example of the spec: L=1000, W=700, T=100, Lw=150,
Lh=200, Tr=50, quantity 1. -/
def ex1 : Params := ⟨1000, 700, 100, 150, 200, 50, 1, EdgeType.chamfer⟩

/-- The same dimensions with the bullnose edge. -/
def ex2 : Params := { ex1 with edge := EdgeType.bullnose }

/-- Invalid-input scenario: Lw = 700 equal to W = 700, all else valid. -/
def pc3 : Params := { ex1 with Lw := 700 }

/-- The chamfer example with the quantity field reading a string that
parses to 0. -/
def exQ : Params := { ex1 with qty := normQty (some 0) }

/-- A validator-accepted configuration whose edge removal exceeds its base
volume: L=1000, W=1, T=100, Lw=1/2, Lh=1, Tr=99, chamfer. -/
def ex10 : Params := ⟨1000, 1, 100, 1/2, 1, 99, 1, EdgeType.chamfer⟩

/-- Membership in a one-element conditional list. -/
theorem mem_ite_singleton {c : Prop} [Decidable c] (a b : String) :
    (a ∈ (if c then [b] else [])) ↔ (c ∧ a = b) := by
  split <;> simp_all

/-- validate succeeds exactly when every invariant of the validator holds. -/
theorem validate_eq_true_iff (v : Params) :
    validate v = true ↔
      (0 < v.L ∧ 0 < v.W ∧ 0 < v.T ∧ 0 < v.Lw ∧ 0 < v.Lh ∧ 0 ≤ v.Tr ∧ 1 ≤ v.qty ∧
        ¬(0 < v.Tr ∧ 0 < v.T ∧ v.T ≤ v.Tr) ∧ ¬(0 < v.Lw ∧ 0 < v.W ∧ v.W ≤ v.Lw)) := by
  simp [validate, validateErrors, List.isEmpty_iff, List.append_eq_nil, not_le, not_lt]
example : validateErrors pc3 = ["Lip Width (Lw) must be less than Total Width (W)."] := by decide

/-- The base volume of the chamfer example evaluates to 100,000,000 mm³. -/
theorem baseVol_ex1 : baseVol ex1 = 100000000 := by
  norm_num [baseVol, ex1]

/-- The chamfer removal of the example evaluates to 1,250,000 mm³. -/
theorem edgeVol_ex1 : edgeVol ex1 = 1250000 := by
  norm_num [edgeVol, ex1]

/-- C1: for every validated parameter set with edgeType = chamfer the
single-unit volume is max(0, L*(W*T + Lw*Lh) - (1/2)*Tr^2*L) — the removal
term uses the leg length Tr, not the hypotenuse; on the end-to-end example
(L=1000, W=700, T=100, Lw=150, Lh=200, Tr=50) the result is 98,750,000 mm³,
whereas the doubled hypotenuse-substituted formula would give 97,500,000. -/
theorem chamfer_volume_spec :
    (∀ v : Params, validate v = true → v.edge = EdgeType.chamfer →
      volOne v =
        max 0 ((v.L : ℝ) * ((v.W : ℝ) * (v.T : ℝ) + (v.Lw : ℝ) * (v.Lh : ℝ)) -
          1 / 2 * (v.Tr : ℝ) ^ 2 * (v.L : ℝ))) ∧
    volOne ex1 = 98750000 ∧
    max 0 (baseVol ex1 - 1 / 2 * ((ex1.Tr : ℝ) * Real.sqrt 2) ^ 2 * (ex1.L : ℝ)) =
      97500000 := by
  refine ⟨?_, ?_, ?_⟩
  · intro v _ he
    have hev : edgeVol v = 1 / 2 * (v.Tr : ℝ) ^ 2 * (v.L : ℝ) := by
      simp only [edgeVol, he]
      ring
    rw [volOne, baseVol, hev]
  · rw [volOne, baseVol_ex1, edgeVol_ex1]
    rw [show (100000000 : ℝ) - 1250000 = 98750000 by norm_num]
    exact max_eq_right (by norm_num)
  · have h2 : Real.sqrt 2 ^ 2 = 2 := Real.sq_sqrt (by norm_num)
    have hd : 1 / 2 * ((ex1.Tr : ℝ) * Real.sqrt 2) ^ 2 * (ex1.L : ℝ) = 2500000 := by
      rw [mul_pow, h2]
      norm_num [ex1]
    rw [baseVol_ex1, hd]
    rw [show (100000000 : ℝ) - 2500000 = 97500000 by norm_num]
    exact max_eq_right (by norm_num)

/-- Witness for C1 at the spec's end-to-end chamfer example. -/
theorem chamfer_volume_spec_witness :
    validate ex1 = true ∧
      volOne ex1 =
        max 0 ((ex1.L : ℝ) * ((ex1.W : ℝ) * (ex1.T : ℝ) + (ex1.Lw : ℝ) * (ex1.Lh : ℝ)) -
          1 / 2 * (ex1.Tr : ℝ) ^ 2 * (ex1.L : ℝ)) :=
  ⟨by decide, chamfer_volume_spec.1 ex1 (by decide) rfl⟩

/-- The bullnose removal of the example is exactly 2,500,000 - 625,000π. -/
theorem edgeVol_ex2_eq : edgeVol ex2 = 2500000 - 625000 * Real.pi := by
  show (((50 : ℚ) : ℝ)) * ((50 : ℚ) : ℝ) * (1 - Real.pi / 4) * ((1000 : ℚ) : ℝ) =
    2500000 - 625000 * Real.pi
  push_cast
  ring

/-- The bullnose removal of the example lies strictly between 536,504 and
536,505 mm³ (its value is ≈ 536,504.59, not the spec's ≈ 536,516). -/
theorem edgeVol_ex2_bounds : 536504 < edgeVol ex2 ∧ edgeVol ex2 < 536505 := by
  rw [edgeVol_ex2_eq]
  constructor
  · linarith [Real.pi_lt_d6]
  · linarith [Real.pi_gt_d6]

/-- The base volume of the bullnose example is also 100,000,000 mm³. -/
theorem baseVol_ex2 : baseVol ex2 = 100000000 := by
  rw [show baseVol ex2 = baseVol ex1 from rfl]
  exact baseVol_ex1

/-- The bullnose example volume lies strictly between 99,463,495 and
99,463,496 mm³. -/
theorem volOne_ex2_bounds : 99463495 < volOne ex2 ∧ volOne ex2 < 99463496 := by
  have he := edgeVol_ex2_bounds
  have hv : volOne ex2 = baseVol ex2 - edgeVol ex2 := by
    apply max_eq_right
    rw [baseVol_ex2]
    linarith [he.2]
  rw [hv, baseVol_ex2]
  constructor
  · linarith [he.2]
  · linarith [he.1]

/-- C2 counterexample: on the spec's bullnose example the edge removal is
more than 11 mm³ below the quoted ≈ 536,516 and the final volume more than
11 mm³ above the quoted ≈ 99,463,484 (true values ≈ 536,504.59 and
≈ 99,463,495.41). -/
theorem bullnose_example_figures_refuted :
    edgeVol ex2 < 536516 - 11 ∧ 99463484 + 11 < volOne ex2 := by
  constructor
  · have := edgeVol_ex2_bounds.2
    norm_num
    linarith
  · have := volOne_ex2_bounds.1
    norm_num
    linarith

/-- C2 (amended): for every validated parameter set with edgeType =
bullnose the single-unit volume is max(0, L*(W*T + Lw*Lh) -
Tr^2*(1 - π/4)*L); on the example (L=1000, W=700, T=100, Lw=150, Lh=200,
Tr=50) the edge removal is ≈ 536,505 mm³ (strictly between 536,504 and
536,505) and the final volume ≈ 99,463,495 mm³ (strictly between
99,463,495 and 99,463,496). -/
theorem bullnose_volume_spec :
    (∀ v : Params, validate v = true → v.edge = EdgeType.bullnose →
      volOne v =
        max 0 ((v.L : ℝ) * ((v.W : ℝ) * (v.T : ℝ) + (v.Lw : ℝ) * (v.Lh : ℝ)) -
          (v.Tr : ℝ) ^ 2 * (1 - Real.pi / 4) * (v.L : ℝ))) ∧
    (536504 < edgeVol ex2 ∧ edgeVol ex2 < 536505) ∧
    (99463495 < volOne ex2 ∧ volOne ex2 < 99463496) := by
  refine ⟨?_, edgeVol_ex2_bounds, volOne_ex2_bounds⟩
  intro v _ he
  have hev : edgeVol v = (v.Tr : ℝ) ^ 2 * (1 - Real.pi / 4) * (v.L : ℝ) := by
    simp only [edgeVol, he]
    ring
  rw [volOne, baseVol, hev]

/-- Witness for C2 at the spec's bullnose example. -/
theorem bullnose_volume_spec_witness :
    validate ex2 = true ∧
      volOne ex2 =
        max 0 ((ex2.L : ℝ) * ((ex2.W : ℝ) * (ex2.T : ℝ) + (ex2.Lw : ℝ) * (ex2.Lh : ℝ)) -
          (ex2.Tr : ℝ) ^ 2 * (1 - Real.pi / 4) * (ex2.L : ℝ)) :=
  ⟨by decide, bullnose_volume_spec.1 ex2 (by decide) rfl⟩

/-- C3: the validator never throws and never short-circuits: for every
parameter set the number of reported violations is the sum of one
independent indicator per invariant; on the scenario Lw = 700 = W (all
other fields valid) it reports exactly the single lip-width/total-width
message, calculate stops before computing any volume, and both displayed
volumes are the placeholder dash. -/
theorem validator_reports_all_violations :
    (∀ v : Params, (validateErrors v).length =
      (if v.L ≤ 0 then 1 else 0) +
      ((if v.W ≤ 0 then 1 else 0) +
      ((if v.T ≤ 0 then 1 else 0) +
      ((if v.Lw ≤ 0 then 1 else 0) +
      ((if v.Lh ≤ 0 then 1 else 0) +
      ((if v.Tr < 0 then 1 else 0) +
      ((if v.qty < 1 then 1 else 0) +
      ((if v.Tr > 0 ∧ v.T > 0 ∧ v.Tr ≥ v.T then 1 else 0) +
       (if v.Lw > 0 ∧ v.W > 0 ∧ v.Lw ≥ v.W then 1 else 0))))))))) ∧
    validateErrors pc3 = ["Lip Width (Lw) must be less than Total Width (W)."] ∧
    calcResult pc3 = none ∧
    (∀ toExp toFix : ℝ → String, displayedVolumes toExp toFix pc3 = ("—", "—")) := by
  have hno : calcResult pc3 = none := by
    simp [calcResult, show validate pc3 = false by decide]
  refine ⟨?_, by decide, hno, ?_⟩
  · intro v
    simp only [validateErrors, List.length_append, apply_ite List.length,
      List.length_singleton, List.length_nil]
    omega
  · intro toExp toFix
    simp [displayedVolumes, hno]

/-- Witness for C3: the violation-count identity evaluated on the
invalid scenario parameter set gives exactly one violation. -/
theorem validator_reports_all_violations_witness :
    (validateErrors pc3).length = 1 := by
  have h := validator_reports_all_violations.1 pc3
  rw [h]
  decide

/-- Replacing the quantity by any value ≥ 1 preserves validity: no other
validator check mentions the quantity. -/
theorem validate_qty_update (v : Params) (n : ℤ) (hv : validate v = true)
    (hn : 1 ≤ n) : validate { v with qty := n } = true := by
  rw [validate_eq_true_iff] at hv ⊢
  obtain ⟨h1, h2, h3, h4, h5, h6, _, h8, h9⟩ := hv
  exact ⟨h1, h2, h3, h4, h5, h6, hn, h8, h9⟩

/-- C4: for every valid parameter set and every quantity n ≥ 1 the
calculator returns exactly (single-unit volume, single-unit volume × n):
the total is linear in the quantity, with no extra rounding or clamping. -/
theorem total_volume_linear_in_quantity :
    ∀ (v : Params) (n : ℤ), validate v = true → 1 ≤ n →
      calcResult { v with qty := n } = some (volOne v, volOne v * (n : ℝ)) := by
  intro v n hv hn
  have hv2 := validate_qty_update v n hv hn
  simp only [calcResult, hv2]
  rfl

/-- Witness for C4 at the chamfer example with quantity 3. -/
theorem total_volume_linear_in_quantity_witness :
    calcResult { ex1 with qty := 3 } = some (volOne ex1, volOne ex1 * ((3 : ℤ) : ℝ)) :=
  total_volume_linear_in_quantity ex1 3 (by decide) (by decide)

/-- C5: for every valid parameter set with edge depth 0 the volume is
exactly the base decomposition L*(W*T + Lw*Lh), for either edge type. -/
theorem zero_edge_depth_volume :
    ∀ v : Params, validate v = true → v.Tr = 0 →
      volOne v = (v.L : ℝ) * ((v.W : ℝ) * (v.T : ℝ) + (v.Lw : ℝ) * (v.Lh : ℝ)) := by
  intro v hv h0
  have he : edgeVol v = 0 := by
    cases hedge : v.edge <;> simp [edgeVol, hedge, h0]
  obtain ⟨h1, h2, h3, h4, h5, _⟩ := (validate_eq_true_iff v).1 hv
  have c1 : (0 : ℝ) < (v.L : ℝ) := by exact_mod_cast h1
  have c2 : (0 : ℝ) < (v.W : ℝ) := by exact_mod_cast h2
  have c3 : (0 : ℝ) < (v.T : ℝ) := by exact_mod_cast h3
  have c4 : (0 : ℝ) < (v.Lw : ℝ) := by exact_mod_cast h4
  have c5 : (0 : ℝ) < (v.Lh : ℝ) := by exact_mod_cast h5
  have hpos : 0 < baseVol v := by
    rw [baseVol]
    exact mul_pos c1 (add_pos (mul_pos c2 c3) (mul_pos c4 c5))
  rw [volOne, he, sub_zero, max_eq_right hpos.le, baseVol]

/-- The chamfer example with its edge depth set to zero. -/
def ex5 : Params := { ex1 with Tr := 0 }

/-- Witness for C5 at the example with Tr = 0. -/
theorem zero_edge_depth_volume_witness :
    validate ex5 = true ∧
      volOne ex5 = (ex5.L : ℝ) * ((ex5.W : ℝ) * (ex5.T : ℝ) + (ex5.Lw : ℝ) * (ex5.Lh : ℝ)) :=
  ⟨by decide, zero_edge_depth_volume ex5 (by decide) rfl⟩

/-- C6: for any parameter set with Tr > 0 and L > 0 the chamfer removal
strictly exceeds the bullnose removal (1/2 > 1 - π/4 because π > 2), so
whenever the chamfer variant has positive volume the bullnose variant of
the same dimensions has a strictly larger volume. -/
theorem chamfer_removal_exceeds_bullnose :
    ∀ v : Params, 0 < v.Tr → 0 < v.L →
      edgeVol { v with edge := EdgeType.bullnose } <
        edgeVol { v with edge := EdgeType.chamfer } ∧
      (0 < volOne { v with edge := EdgeType.chamfer } →
        volOne { v with edge := EdgeType.chamfer } <
          volOne { v with edge := EdgeType.bullnose }) := by
  intro v hTr hL
  have cTr : (0 : ℝ) < (v.Tr : ℝ) := by exact_mod_cast hTr
  have cL : (0 : ℝ) < (v.L : ℝ) := by exact_mod_cast hL
  have hch : edgeVol { v with edge := EdgeType.chamfer } =
      0.5 * (v.Tr : ℝ) * (v.Tr : ℝ) * (v.L : ℝ) := rfl
  have hbn : edgeVol { v with edge := EdgeType.bullnose } =
      (v.Tr : ℝ) * (v.Tr : ℝ) * (1 - Real.pi / 4) * (v.L : ℝ) := rfl
  have hpi : (3 : ℝ) < Real.pi := Real.pi_gt_three
  have hlt : edgeVol { v with edge := EdgeType.bullnose } <
      edgeVol { v with edge := EdgeType.chamfer } := by
    rw [hch, hbn]
    nlinarith [mul_pos (mul_pos cTr cTr) cL]
  refine ⟨hlt, ?_⟩
  intro hpos
  have hvch : volOne { v with edge := EdgeType.chamfer } =
      max 0 (baseVol v - edgeVol { v with edge := EdgeType.chamfer }) := rfl
  have hvbn : volOne { v with edge := EdgeType.bullnose } =
      max 0 (baseVol v - edgeVol { v with edge := EdgeType.bullnose }) := rfl
  rw [hvch, lt_max_iff] at hpos
  have hpos2 : 0 < baseVol v - edgeVol { v with edge := EdgeType.chamfer } := by
    rcases hpos with h | h
    · exact absurd h (lt_irrefl 0)
    · exact h
  have hpos3 : 0 < baseVol v - edgeVol { v with edge := EdgeType.bullnose } := by
    linarith
  rw [hvch, hvbn, max_eq_right hpos2.le, max_eq_right hpos3.le]
  linarith

/-- Witness for C6 at the example dimensions. -/
theorem chamfer_removal_exceeds_bullnose_witness :
    edgeVol { ex1 with edge := EdgeType.bullnose } <
        edgeVol { ex1 with edge := EdgeType.chamfer } ∧
      (0 < volOne { ex1 with edge := EdgeType.chamfer } →
        volOne { ex1 with edge := EdgeType.chamfer } <
          volOne { ex1 with edge := EdgeType.bullnose }) :=
  chamfer_removal_exceeds_bullnose ex1 (by decide) (by decide)

/-- C7: for all Lw, T > 0 the auto-fit radius Lw + T - sqrt(2*Lw*T)
satisfies the defining tangency equation
sqrt((Lw - Tr)^2 + (T - Tr)^2) = Tr, and for Lw = T = 100 it equals
200 - sqrt(20000), which lies strictly between 58.578 and 58.579. -/
theorem autofit_radius_roundtrip :
    (∀ Lw T : ℝ, 0 < Lw → 0 < T →
      Real.sqrt ((Lw - autoFitTr Lw T) ^ 2 + (T - autoFitTr Lw T) ^ 2) =
        autoFitTr Lw T) ∧
    autoFitTr 100 100 = 200 - Real.sqrt 20000 ∧
    58.578 < autoFitTr 100 100 ∧ autoFitTr 100 100 < 58.579 := by
  have hval : autoFitTr 100 100 = 200 - Real.sqrt 20000 := by
    rw [autoFitTr]
    norm_num
  have hlt : Real.sqrt 20000 < 141.422 := by
    rw [show (141.422 : ℝ) = Real.sqrt (141.422 ^ 2) from
      (Real.sqrt_sq (by norm_num)).symm]
    apply Real.sqrt_lt_sqrt (by norm_num)
    norm_num
  have hgt : (141.421 : ℝ) < Real.sqrt 20000 := by
    rw [show (141.421 : ℝ) = Real.sqrt (141.421 ^ 2) from
      (Real.sqrt_sq (by norm_num)).symm]
    apply Real.sqrt_lt_sqrt (by norm_num)
    norm_num
  refine ⟨?_, hval, by rw [hval]; linarith, by rw [hval]; linarith⟩
  intro Lw T hLw hT
  have hs : Real.sqrt (2 * Lw * T) ^ 2 = 2 * Lw * T :=
    Real.sq_sqrt (by positivity)
  have hTr0 : 0 ≤ autoFitTr Lw T := by
    rw [autoFitTr]
    have h1 : Real.sqrt (2 * Lw * T) ≤ Lw + T := by
      rw [show Lw + T = Real.sqrt ((Lw + T) ^ 2) from
        (Real.sqrt_sq (by positivity)).symm]
      apply Real.sqrt_le_sqrt
      nlinarith [sq_nonneg (Lw - T)]
    linarith
  have key : (Lw - autoFitTr Lw T) ^ 2 + (T - autoFitTr Lw T) ^ 2 =
      autoFitTr Lw T ^ 2 := by
    rw [autoFitTr]
    linear_combination hs
  rw [key, Real.sqrt_sq hTr0]

/-- Witness for C7: the tangency round trip at Lw = T = 100. -/
theorem autofit_radius_roundtrip_witness :
    Real.sqrt ((100 - autoFitTr 100 100) ^ 2 + (100 - autoFitTr 100 100) ^ 2) =
      autoFitTr 100 100 :=
  autofit_radius_roundtrip.1 100 100 (by norm_num) (by norm_num)

/-- With no positive edge depth the cross-section list has six vertices. -/
theorem csTop_length_sharp (v : Params) (h : ¬ 0 < v.Tr) :
    (csTop v).length = 6 := by
  simp only [csTop, if_neg h]
  rfl

/-- With a positive edge depth and the chamfer variant the cross-section
list has seven vertices: the top-outer corner is replaced by two. -/
theorem csTop_length_chamfer (v : Params) (h : 0 < v.Tr)
    (he : v.edge = EdgeType.chamfer) : (csTop v).length = 7 := by
  simp only [csTop, if_pos h, he]
  rfl

/-- With a positive edge depth and the bullnose variant the cross-section
list has 6 + segments = 18 vertices: the corner becomes segments + 1 arc
samples. -/
theorem csTop_length_bullnose (v : Params) (h : 0 < v.Tr)
    (he : v.edge = EdgeType.bullnose) : (csTop v).length = 6 + segments := by
  simp only [csTop, if_pos h, he]
  rw [List.length_cons, List.length_append, List.length_map, List.length_range]
  rfl

/-- C8 counterexample: on the chamfer example (Tr = 50 > 0) the built
polygon has 7 vertices, not the claimed six plus two = 8. -/
theorem chamfer_vertex_count_not_six_plus_two :
    (csTop ex1).length = 7 ∧ (csTop ex1).length ≠ 6 + 2 := by
  have h : (csTop ex1).length = 7 := csTop_length_chamfer ex1 (by decide) rfl
  exact ⟨h, by rw [h]; decide⟩

/-- C8 (amended): six vertices when the edge depth is not positive; six
plus ONE (the corner replaced by two vertices joined by a diagonal) for a
significant chamfer; six plus the arc-subdivision count (12) for a
significant bullnose. -/
theorem cross_section_vertex_counts :
    (∀ v : Params, ¬ 0 < v.Tr → (csTop v).length = 6) ∧
    (∀ v : Params, 0 < v.Tr → v.edge = EdgeType.chamfer →
      (csTop v).length = 6 + 1) ∧
    (∀ v : Params, 0 < v.Tr → v.edge = EdgeType.bullnose →
      (csTop v).length = 6 + segments) :=
  ⟨fun v h => csTop_length_sharp v h,
   fun v h he => csTop_length_chamfer v h he,
   fun v h he => csTop_length_bullnose v h he⟩

/-- Witness for C8 on the three concrete example parameter sets. -/
theorem cross_section_vertex_counts_witness :
    (csTop ex5).length = 6 ∧ (csTop ex1).length = 6 + 1 ∧
      (csTop ex2).length = 6 + segments :=
  ⟨cross_section_vertex_counts.1 ex5 (by decide),
   cross_section_vertex_counts.2.1 ex1 (by decide) rfl,
   cross_section_vertex_counts.2.2 ex2 (by decide) rfl⟩

/-- The quantity violation message appears in the validator output exactly
when the quantity field is below 1; no other check emits that message. -/
theorem qty_msg_mem_iff (v : Params) :
    ("Quantity must be at least 1." ∈ validateErrors v) ↔ v.qty < 1 := by
  simp [validateErrors, mem_ite_singleton]

/-- C9: a quantity input parsing to 0 (or any malformed input) is
normalized to the default 1 by getValues before validation, so the
quantity violation fires exactly for inputs parsing to a negative integer;
with the example dimensions and a quantity input of 0 the configuration is
accepted and the reported total equals the single-unit volume. -/
theorem zero_quantity_normalized :
    normQty (some 0) = 1 ∧ normQty none = 1 ∧
    (∀ (v : Params) (n : Option ℤ), v.qty = normQty n →
      (("Quantity must be at least 1." ∈ validateErrors v) ↔
        ∃ m : ℤ, n = some m ∧ m < 0)) ∧
    validate exQ = true ∧
    calcResult exQ = some (volOne exQ, volOne exQ) := by
  have hval : validate exQ = true := by decide
  refine ⟨rfl, rfl, ?_, hval, ?_⟩
  · intro v n hq
    rw [qty_msg_mem_iff, hq]
    cases n with
    | none => simp [normQty]
    | some m =>
      simp only [normQty]
      by_cases h0 : m = 0
      · simp [h0]
      · rw [if_neg h0]
        constructor
        · intro hlt
          exact ⟨m, rfl, by omega⟩
        · rintro ⟨m2, hm2, hneg⟩
          injection hm2 with hm2e
          omega
  · have hq1 : ((exQ.qty : ℤ) : ℝ) = 1 := by norm_num [exQ, normQty]
    simp only [calcResult, hval, if_true]
    rw [volTotal, hq1, mul_one]

/-- Witness for C9: the quantity-violation characterization instantiated
at the accepted zero-quantity scenario. -/
theorem zero_quantity_normalized_witness :
    ("Quantity must be at least 1." ∈ validateErrors exQ) ↔
      ∃ m : ℤ, (some 0 : Option ℤ) = some m ∧ m < 0 :=
  zero_quantity_normalized.2.2.1 exQ (some 0) rfl

/-- C10: the validator never compares the edge depth with W (only with
T), so the configuration L=1000, W=1, T=100, Lw=1/2, Lh=1, Tr=99 passes
validation while its chamfer removal (4,900,500 mm³) exceeds its base
volume (100,500 mm³); the clamp produces a single-unit volume of exactly
0, which formatVolume renders as the placeholder dash, not a numeric
zero. -/
theorem accepted_config_clamped_to_zero :
    validate ex10 = true ∧
    baseVol ex10 < edgeVol ex10 ∧
    volOne ex10 = 0 ∧
    (∀ toExp toFix : ℝ → String,
      displayedVolumes toExp toFix ex10 = ("—", "—")) := by
  have hval : validate ex10 = true := by
    rw [validate_eq_true_iff]
    norm_num [ex10]
  have hb : baseVol ex10 = 100500 := by norm_num [baseVol, ex10]
  have he : edgeVol ex10 = 4900500 := by norm_num [edgeVol, ex10]
  have hlt : baseVol ex10 < edgeVol ex10 := by
    rw [hb, he]
    norm_num
  have hv0 : volOne ex10 = 0 := by
    rw [volOne, hb, he]
    rw [max_eq_left (by norm_num)]
  have ht0 : volTotal ex10 = 0 := by
    rw [volTotal, hv0, zero_mul]
  refine ⟨hval, hlt, hv0, ?_⟩
  intro toExp toFix
  have hc : calcResult ex10 = some (0, 0) := by
    simp only [calcResult, hval, if_true]
    rw [hv0, ht0]
  simp only [displayedVolumes, hc]
  simp [formatVolume]

/-- Witness for C10: the displayed strings with any rendering primitives
are the placeholder dashes. -/
theorem accepted_config_clamped_to_zero_witness :
    displayedVolumes (fun _ => "") (fun _ => "") ex10 = ("—", "—") :=
  accepted_config_clamped_to_zero.2.2.2 (fun _ => "") (fun _ => "")
